import Mathlib

/-!
Shallow embedding of the HyperPay checkout/fulfillment service (`server.js`).

Modelling conventions:
* JavaScript numbers that appear in request bodies are modelled at integer
  precision (`Int`): every numeric value the verified properties exercise is an
  integer, and `parseFloat` is modelled as parsing an optional sign followed by
  leading decimal digits (returning `none` for NaN).
* `undefined` request fields are `Option.none`; JS truthiness of strings and
  numbers (`!x`) is modelled by the `jsFalsy*` functions.
* The Firestore document store is modelled as a `Store` record: an association
  list of order documents keyed by document id, and a flat list of cart-item
  documents (`carts/{userId}/items/*`, each carrying a `supplierId` field).
* External HTTP fetches to the gateway are modelled as an `Option GatewayData`
  argument supplied to the handler: `none` is a transport/HTTP failure (the
  `catch` branch), `some d` a successful fetch of the transaction result.
-/

namespace HyperPay

/-- JSON scalar for body fields that may arrive as a string or a number. -/
inductive JsonVal where
  | jstr (s : String)
  | jnum (n : Int)
deriving DecidableEq

/-- JS truthiness test `!x` for an optional string (query/body field):
`undefined` and the empty string are falsy. -/
def jsFalsyStr : Option String → Bool
  | none => true
  | some s => s == ""

/-- JS truthiness test `!x` for an optional string-or-number field:
`undefined`, `""` and `0` are falsy. -/
def jsFalsy : Option JsonVal → Bool
  | none => true
  | some (.jstr s) => s == ""
  | some (.jnum n) => n == 0

/-- Value of the decimal digits leading a character list, `none` if no digit. -/
def leadDigits : List Char → Option Nat → Option Nat
  | [], acc => acc
  | c :: cs, acc =>
    if c.isDigit then leadDigits cs (some ((acc.getD 0) * 10 + (c.toNat - 48)))
    else acc

/-- Model of JS `parseFloat` on a string, at integer precision: skip leading
whitespace, read an optional sign and leading digits; `none` models NaN. -/
def parseFloatStr (s : String) : Option Int :=
  match s.toList.dropWhile Char.isWhitespace with
  | '-' :: rest => (leadDigits rest none).map (fun n => -(n : Int))
  | '+' :: rest => (leadDigits rest none).map (fun n => (n : Int))
  | cs => (leadDigits cs none).map (fun n => (n : Int))

/-- Model of JS `parseFloat` applied to a string-or-number value. -/
def parseFloatVal : Option JsonVal → Option Int
  | none => none
  | some (.jnum n) => some n
  | some (.jstr s) => parseFloatStr s

/-- Model of JS `x.toFixed(2)` at integer precision; `none` (NaN) prints "NaN". -/
def toFixed2 : Option Int → String
  | none => "NaN"
  | some n => toString n ++ ".00"

/-- Model of JS `String.prototype.trim`: strip leading and trailing
whitespace (structural, so it evaluates in the kernel). -/
def jsTrim (s : String) : String :=
  String.mk (((s.toList.dropWhile Char.isWhitespace).reverse.dropWhile
    Char.isWhitespace).reverse)

/-- JS `x || d` on two strings: the empty string falls back to the default. -/
def presentOr (s d : String) : String := if s == "" then d else s

/-- JS `x || d` where `x` is an optional string: `undefined` and `""` fall back. -/
def orDefault (v : Option String) (d : String) : String := presentOr (v.getD "") d

/-- Request body of `POST /api/create-checkout` (destructured fields). -/
structure CheckoutBody where
  amount : Option JsonVal
  email : Option String
  name : Option String
  street : Option String
  city : Option String
  state : Option String
  country : Option String
  postcode : Option String
deriving DecidableEq

/-- Outcome of the create-checkout handler up to the outbound gateway call:
either an early 400 (no gateway call, no side effect) or the form-encoded
parameter set handed to the gateway client. -/
inductive CheckoutResult where
  | badRequest (error : String)
  | gatewayCall (params : List (String × String))
deriving DecidableEq

/-- The parameter list of an issued gateway call, `none` if no call was issued. -/
def sentParams : CheckoutResult → Option (List (String × String))
  | .badRequest _ => none
  | .gatewayCall ps => some ps

/-- The `URLSearchParams` construction of the create-checkout handler
(`server.js`), in source order, with trimming and `||`-defaults.  `now` stands
for `Date.now()` in the merchant transaction id. -/
def checkoutParams (entityId currency : String) (now : Nat) (b : CheckoutBody) :
    List (String × String) :=
  [ ("entityId", entityId)
  , ("amount", toFixed2 (parseFloatVal b.amount))
  , ("currency", currency)
  , ("paymentType", "DB")
  , ("merchantTransactionId", "txn_" ++ toString now)
  , ("customer.email", presentOr (jsTrim (b.email.getD "")) "buyer@example.com")
  , ("customer.givenName", jsTrim (b.name.getD ""))
  , ("customer.surname", jsTrim (b.name.getD ""))
  , ("billing.street1", orDefault b.street "King Fahad Road")
  , ("billing.city", orDefault b.city "Riyadh")
  , ("billing.state", orDefault b.state "Riyadh")
  , ("billing.country", orDefault b.country "SA")
  , ("billing.postcode", orDefault b.postcode "12345")
  , ("customParameters[3DS2_enrolled]", "true")
  , ("customParameters[3DS2_scenario]", "02")
  , ("standingInstruction.mode", "INITIAL")
  , ("standingInstruction.type", "UNSCHEDULED")
  ]

/-- Embedding of the `POST /api/create-checkout` handler body (`server.js`):
the falsy presence check on `name`/`amount`, then the gateway call carrying
the built parameter set. -/
def createCheckout (entityId currency : String) (now : Nat) (b : CheckoutBody) :
    CheckoutResult :=
  if jsFalsyStr b.name || jsFalsy b.amount then
    .badRequest "Missing required fields: name or amount"
  else
    .gatewayCall (checkoutParams entityId currency now b)

/-- Uppercase hexadecimal digit of a value below 16. -/
def hexDigit (n : Nat) : Char :=
  if n < 10 then Char.ofNat (48 + n) else Char.ofNat (55 + n)

/-- Percent-encoding of one byte, e.g. `32 ↦ "%20"`. -/
def percentByte (b : Nat) : String :=
  String.mk ['%', hexDigit (b / 16), hexDigit (b % 16)]

/-- UTF-8 byte sequence of a character, as natural numbers. -/
def utf8Bytes (c : Char) : List Nat :=
  let n := c.toNat
  if n < 128 then [n]
  else if n < 2048 then [192 + n / 64, 128 + n % 64]
  else if n < 65536 then [224 + n / 4096, 128 + (n / 64) % 64, 128 + n % 64]
  else [240 + n / 262144, 128 + (n / 4096) % 64, 128 + (n / 64) % 64, 128 + n % 64]

/-- Characters `encodeURIComponent` leaves unescaped. -/
def uriUnreserved (c : Char) : Bool :=
  c.isAlphanum || c ∈ ['-', '_', '.', '!', '~', '*', Char.ofNat 39, '(', ')']

/-- Model of JS `encodeURIComponent`. -/
def encodeURIComponent (s : String) : String :=
  String.join (s.toList.map (fun c =>
    if uriUnreserved c then String.singleton c
    else String.join ((utf8Bytes c).map percentByte)))

/-- Data of one cart-item document (`doc.data()`), carrying the `supplierId`
field the fulfillment query filters on; other fields are opaque payload. -/
structure CartData where
  supplierId : String
  payload : String
deriving DecidableEq

/-- One document under `carts/{userId}/items/*`. -/
structure CartItem where
  docId : String
  userId : String
  data : CartData
deriving DecidableEq

/-- The order document written by the fulfillment step of
`GET /api/payment-status` (`db.collection("orders").doc(orderId).set({...})`).
`createdAt` stands for the server timestamp. -/
structure OrderDoc where
  transactionId : String
  orderStatus : String
  paymentMethod : Option String
  totalAmount : String
  cardBrand : String
  userId : String
  userEmail : Option String
  userName : Option String
  buyerId : String
  createdAt : Nat
  items : List CartData
deriving DecidableEq

/-- The document store: `orders/{transactionId}` as an association list keyed
by document id, and the cart-item documents. -/
structure Store where
  orders : List (String × OrderDoc)
  carts : List CartItem
deriving DecidableEq

/-- Gateway transaction result fetched from
`{origin}{resourcePath}?entityId={entityId}`, with the fields the handlers
read.  Optional chains (`data.card?.brand`, `data.customer?.email`,
`data.customer?.givenName`) are flattened into optional fields; `billing` is
kept opaque.  `amount` is the gateway amount's string rendering. -/
structure GwResult where
  code : String
  description : String
deriving DecidableEq

structure GatewayData where
  id : String
  result : GwResult
  amount : Option String
  paymentType : Option String
  cardBrand : Option String
  customerEmail : Option String
  customerGivenName : Option String
  billing : Option String
deriving DecidableEq

/-- The fixed allow-list of approved result codes (`successCodes`). -/
def successCodes : List String := ["000.000.000", "000.100.110", "000.100.112"]

/-- Result classification. -/
inductive PayClass where
  | approved
  | declined
deriving DecidableEq

/-- The Result Classifier: `successCodes.includes(code)` decides approval,
everything else is declined. -/
def classify (code : String) : PayClass :=
  if successCodes.contains code then .approved else .declined

/-- Cart query of the fulfillment step:
`carts/{userId}/items` filtered by `supplierId == sid`. -/
def cartQuery (st : Store) (uid sid : String) : List CartItem :=
  st.carts.filter (fun it => it.userId == uid && it.data.supplierId == sid)

/-- The order's item snapshot: `cartSnap.docs.map((doc) => doc.data())`. -/
def snapshotItems (st : Store) (uid sid : String) : List CartData :=
  (cartQuery st uid sid).map (fun it => it.data)

/-- Firestore `set` on `orders/{id}`: unconditional overwrite of the document
with that id (last write wins), leaving all other documents in place. -/
def setOrder (orders : List (String × OrderDoc)) (id : String) (doc : OrderDoc) :
    List (String × OrderDoc) :=
  (id, doc) :: orders.filter (fun p => !(p.1 == id))

/-- The order document built from an approved gateway result (`server.js`,
fields in source order; `?? null` becomes the option itself, `?? 0` and
`?? "N/A"` become `getD`). -/
def mkOrderDoc (now : Nat) (uid : String) (d : GatewayData) (items : List CartData) :
    OrderDoc :=
  { transactionId := d.id
    orderStatus := "Paid"
    paymentMethod := d.paymentType
    totalAmount := d.amount.getD "0"
    cardBrand := d.cardBrand.getD "N/A"
    userId := uid
    userEmail := d.customerEmail
    userName := d.customerGivenName
    buyerId := uid
    createdAt := now
    items := items }

/-- State after step 2 of fulfillment: the order written, cart untouched. -/
def writeOrderState (now : Nat) (st : Store) (uid sid : String) (d : GatewayData) :
    Store :=
  { st with orders := setOrder st.orders d.id (mkOrderDoc now uid d (snapshotItems st uid sid)) }

/-- State after step 3 of fulfillment: the batch delete of every document the
cart query read (all items of `uid` whose `supplierId` is `sid`). -/
def clearCartState (st : Store) (uid sid : String) : Store :=
  { st with carts := st.carts.filter (fun it => !(it.userId == uid && it.data.supplierId == sid)) }

/-- Full fulfillment: snapshot the cart, write the order, delete the cart. -/
def fulfillState (now : Nat) (st : Store) (uid sid : String) (d : GatewayData) :
    Store :=
  clearCartState (writeOrderState now st uid sid d) uid sid

/-- Response of `GET /api/payment-status`. -/
inductive PSResponse where
  | badRequest (error : String)
  | redirect (url : String)
  | serverError (error : String)
deriving DecidableEq

/-- Embedding of the `GET /api/payment-status` handler (`server.js`): presence
check on the query params, fetch of the gateway result (`gw`, `none` being the
`catch` branch), the allow-list test, and on approval the
snapshot/write/delete fulfillment followed by the order-details redirect.
`furl` is `FRONTEND_URL`, `now` the server timestamp. -/
def paymentStatus (furl : String) (now : Nat) (st : Store)
    (resourcePath userId supplierId : Option String)
    (gw : Option GatewayData) : Store × PSResponse :=
  if jsFalsyStr resourcePath || jsFalsyStr userId || jsFalsyStr supplierId then
    (st, .badRequest "Missing resourcePath, userId or supplierId")
  else
    match gw with
    | none => (st, .serverError "Error verifying payment")
    | some d =>
      if successCodes.contains d.result.code then
        (fulfillState now st (userId.getD "") (supplierId.getD "") d,
         .redirect (furl ++ "/order-details/" ++ d.id ++ "?supplierId=" ++ supplierId.getD ""))
      else
        (st, .redirect (furl ++ "/payment-failed?error=" ++ encodeURIComponent d.result.code
          ++ "&message=" ++ encodeURIComponent d.result.description))

/-- Response of `POST /api/verify-payment`. -/
inductive VerifyResponse where
  | badRequest (error : String)
  | ok (transactionId : String) (amount : Option String) (paymentType : Option String)
      (cardBrand : Option String) (customerName : Option String)
      (customerEmail : Option String) (billing : String) (resourcePath : String)
  | serverError (error : String)
deriving DecidableEq

/-- Embedding of the `POST /api/verify-payment` handler (`server.js`): presence
check on `resourcePath`, then the fetched result's fields are mapped straight
into the response; the store is threaded through to record that the handler
performs no persistence. -/
def verifyPayment (st : Store) (resourcePath : Option String)
    (gw : Option GatewayData) : Store × VerifyResponse :=
  if jsFalsyStr resourcePath then
    (st, .badRequest "Missing resourcePath")
  else
    match gw with
    | none => (st, .serverError "Verification failed")
    | some d =>
      (st, .ok d.id d.amount d.paymentType d.cardBrand d.customerGivenName
        d.customerEmail (d.billing.getD "\x7b\x7d") (resourcePath.getD ""))

/-- One externally triggered operation on the shared store, together with the
log of gateway transaction results observed so far.  Handlers may also crash
mid-flight: `paymentCrashEarly` covers every stop before the order write
(state unchanged), `paymentCrashAfterOrder` a stop between the order write and
the cart-delete batch commit. -/
inductive Step : Store → List GatewayData → Store → List GatewayData → Prop where
  | payment (st : Store) (log : List GatewayData) (furl : String) (now : Nat)
      (rp uid sid : Option String) (gw : Option GatewayData) (st' : Store)
      (log' : List GatewayData)
      (hst : st' = (paymentStatus furl now st rp uid sid gw).1)
      (hlog : log' = log ++ gw.toList) : Step st log st' log'
  | paymentCrashEarly (st : Store) (log : List GatewayData) (gw : Option GatewayData)
      (st' : Store) (log' : List GatewayData) (hst : st' = st)
      (hlog : log' = log ++ gw.toList) : Step st log st' log'
  | paymentCrashAfterOrder (st : Store) (log : List GatewayData) (now : Nat)
      (uid sid : String) (d : GatewayData)
      (happ : successCodes.contains d.result.code = true) (st' : Store)
      (log' : List GatewayData) (hst : st' = writeOrderState now st uid sid d)
      (hlog : log' = log ++ [d]) : Step st log st' log'
  | verify (st : Store) (log : List GatewayData) (rp : Option String)
      (gw : Option GatewayData) (st' : Store) (log' : List GatewayData)
      (hst : st' = (verifyPayment st rp gw).1) (hlog : log' = log ++ gw.toList) :
      Step st log st' log'

/-- Store states reachable from a fresh deployment: no orders yet, an
arbitrary pre-existing cart, and any sequence of operations. -/
inductive Reach : Store → List GatewayData → Prop where
  | init (carts : List CartItem) : Reach ⟨[], carts⟩ []
  | next {st log st' log'} : Reach st log → Step st log st' log' → Reach st' log'

/-- The verify-only handler never mutates the store. -/
lemma verifyPayment_fst (st : Store) (rp : Option String) (gw : Option GatewayData) :
    (verifyPayment st rp gw).1 = st := by
  unfold verifyPayment
  split
  · rfl
  · cases gw <;> rfl

/-- On an approved result with all query params present, the payment-status
handler performs exactly the fulfillment transition. -/
lemma paymentStatus_approved (furl : String) (now : Nat) (st : Store)
    (rp uid sid : String) (d : GatewayData)
    (hrp : rp ≠ "") (huid : uid ≠ "") (hsid : sid ≠ "")
    (happ : successCodes.contains d.result.code = true) :
    paymentStatus furl now st (some rp) (some uid) (some sid) (some d)
      = (fulfillState now st uid sid d,
         .redirect (furl ++ "/order-details/" ++ d.id ++ "?supplierId=" ++ sid)) := by
  have happ' : d.result.code ∈ successCodes := by simpa using happ
  unfold paymentStatus jsFalsyStr
  simp [hrp, huid, hsid, happ']

/-- On a declined result with all query params present, the handler leaves the
store alone and redirects to the failure page with the code and description. -/
lemma paymentStatus_declined (furl : String) (now : Nat) (st : Store)
    (rp uid sid : String) (d : GatewayData)
    (hrp : rp ≠ "") (huid : uid ≠ "") (hsid : sid ≠ "")
    (hdec : successCodes.contains d.result.code = false) :
    paymentStatus furl now st (some rp) (some uid) (some sid) (some d)
      = (st, .redirect (furl ++ "/payment-failed?error=" ++ encodeURIComponent d.result.code
          ++ "&message=" ++ encodeURIComponent d.result.description)) := by
  have hdec' : d.result.code ∉ successCodes := by simpa using hdec
  unfold paymentStatus jsFalsyStr
  simp [hrp, huid, hsid, hdec']

/-- The orders collection after a `setOrder` holds exactly one document with
the written key, namely the written document. -/
lemma setOrder_filter (orders : List (String × OrderDoc)) (id : String) (doc : OrderDoc) :
    (setOrder orders id doc).filter (fun p => p.1 == id) = [(id, doc)] := by
  unfold setOrder
  simp only [List.filter_cons, beq_self_eq_true, if_pos, List.filter_filter]
  rw [List.filter_eq_nil_iff.mpr]
  intro p _
  cases h : p.1 == id <;> simp [h]

/-- After the cart-delete batch, the fulfillment's cart query is empty. -/
lemma cartQuery_clearCartState (st : Store) (uid sid : String) :
    cartQuery (clearCartState st uid sid) uid sid = [] := by
  unfold cartQuery clearCartState
  simp only [List.filter_filter]
  rw [List.filter_eq_nil_iff.mpr]
  intro it _
  cases h : it.userId == uid && it.data.supplierId == sid <;> simp [h]

/-- Writing the order document does not touch the cart collection. -/
lemma writeOrderState_carts (now : Nat) (st : Store) (uid sid : String) (d : GatewayData) :
    (writeOrderState now st uid sid d).carts = st.carts := rfl

/-- Clearing the cart does not touch the orders collection. -/
lemma clearCartState_orders (st : Store) (uid sid : String) :
    (clearCartState st uid sid).orders = st.orders := rfl

/-- The fulfillment's cart query on the fulfilled pair is empty afterwards. -/
lemma cartQuery_fulfillState (now : Nat) (st : Store) (uid sid : String) (d : GatewayData) :
    cartQuery (fulfillState now st uid sid d) uid sid = [] := by
  unfold fulfillState
  exact cartQuery_clearCartState _ uid sid

/-- Orders after fulfillment are the pre-state orders with the new document
set under its transaction id. -/
lemma fulfillState_orders (now : Nat) (st : Store) (uid sid : String) (d : GatewayData) :
    (fulfillState now st uid sid d).orders
      = setOrder st.orders d.id (mkOrderDoc now uid d (snapshotItems st uid sid)) := rfl

/-- Carts after fulfillment are the pre-state carts with the queried pair
filtered out. -/
lemma fulfillState_carts (now : Nat) (st : Store) (uid sid : String) (d : GatewayData) :
    (fulfillState now st uid sid d).carts
      = st.carts.filter (fun it => !(it.userId == uid && it.data.supplierId == sid)) := rfl

/-- The payment-status handler either leaves the store untouched, or performs
the fulfillment transition for some approved fetched result. -/
lemma paymentStatus_fst_cases (furl : String) (now : Nat) (st : Store)
    (rp uid sid : Option String) (gw : Option GatewayData) :
    (paymentStatus furl now st rp uid sid gw).1 = st
    ∨ ∃ d, gw = some d ∧ successCodes.contains d.result.code = true
        ∧ (paymentStatus furl now st rp uid sid gw).1
            = fulfillState now st (uid.getD "") (sid.getD "") d := by
  unfold paymentStatus
  by_cases h0 : (jsFalsyStr rp || jsFalsyStr uid || jsFalsyStr sid) = true
  · left
    rw [if_pos h0]
  · rw [if_neg h0]
    cases gw with
    | none => left; rfl
    | some d =>
      by_cases h : successCodes.contains d.result.code = true
      · right
        have h' : d.result.code ∈ successCodes := by simpa using h
        exact ⟨d, rfl, h, by simp [h']⟩
      · left
        have h' : d.result.code ∉ successCodes := by simpa using h
        simp [h']

/-- A document in the orders list after a `setOrder` is the written document
or was already present. -/
lemma mem_setOrder {orders : List (String × OrderDoc)} {id : String} {doc : OrderDoc}
    {p : String × OrderDoc} (hp : p ∈ setOrder orders id doc) :
    p = (id, doc) ∨ p ∈ orders := by
  unfold setOrder at hp
  rcases List.mem_cons.mp hp with h | h
  · left; exact h
  · right; exact (List.mem_filter.mp h).1

/-- Every step only grows the log of observed gateway results. -/
lemma step_log_mono {s1 : Store} {l1 : List GatewayData} {s2 : Store}
    {l2 : List GatewayData} (h : Step s1 l1 s2 l2) : ∃ t, l2 = l1 ++ t := by
  cases h with
  | payment furl now rp uid sid gw =>
      rename_i hst hlog
      subst hst hlog
      exact ⟨gw.toList, rfl⟩
  | paymentCrashEarly gw =>
      rename_i hst hlog
      subst hst hlog
      exact ⟨gw.toList, rfl⟩
  | paymentCrashAfterOrder now uid sid d happ =>
      rename_i hst hlog
      subst hst hlog
      exact ⟨[d], rfl⟩
  | verify rp gw =>
      rename_i hst hlog
      subst hst hlog
      exact ⟨gw.toList, rfl⟩

/-- Per-step order provenance: any order document present after a step was
present before, or an approved gateway result with its key is in the new log. -/
lemma step_orders_inv {s1 : Store} {l1 : List GatewayData} {s2 : Store}
    {l2 : List GatewayData} (h : Step s1 l1 s2 l2) :
    ∀ p ∈ s2.orders, p ∈ s1.orders
      ∨ ∃ d ∈ l2, d.id = p.1 ∧ successCodes.contains d.result.code = true := by
  intro p hp
  cases h with
  | payment furl now rp uid sid gw =>
      rename_i hst hlog
      subst hst hlog
      rcases paymentStatus_fst_cases furl now s1 rp uid sid gw with hc | ⟨d, hgw, happ, heq⟩
      · left; rwa [hc] at hp
      · rw [heq, fulfillState_orders] at hp
        rcases mem_setOrder hp with h1 | h1
        · right
          refine ⟨d, ?_, ?_, happ⟩
          · subst hgw
            exact List.mem_append_right l1 (by simp [Option.toList])
          · rw [h1]
        · left; exact h1
  | paymentCrashEarly gw =>
      rename_i hst hlog
      subst hst hlog
      left; exact hp
  | paymentCrashAfterOrder now uid sid d happ =>
      rename_i hst hlog
      subst hst hlog
      have hp' : p ∈ setOrder s1.orders d.id (mkOrderDoc now uid d (snapshotItems s1 uid sid)) := hp
      rcases mem_setOrder hp' with h1 | h1
      · right
        refine ⟨d, List.mem_append_right l1 (by simp), ?_, happ⟩
        rw [h1]
      · left; exact h1
  | verify rp gw =>
      rename_i hst hlog
      subst hst hlog
      left
      rwa [verifyPayment_fst s1 rp gw] at hp

/-- Reachability invariant: every order document in a reachable store is keyed
by the transaction id of some observed approved gateway result. -/
lemma reach_orders_inv {st : Store} {log : List GatewayData} (h : Reach st log) :
    ∀ p ∈ st.orders, ∃ d ∈ log, d.id = p.1
      ∧ successCodes.contains d.result.code = true := by
  induction h with
  | init carts => intro p hp; simp at hp
  | next hr hs ih =>
      intro p hp
      rcases step_orders_inv hs p hp with h1 | h2
      · obtain ⟨d, hd, hid, happ⟩ := ih p h1
        obtain ⟨t, ht⟩ := step_log_mono hs
        exact ⟨d, ht ▸ List.mem_append_left t hd, hid, happ⟩
      · exact h2

/-- Per-step cart-delete provenance: any cart item a step removes appears in
the item snapshot of an order document present in the post state. -/
lemma step_cart_delete {s1 : Store} {l1 : List GatewayData} {s2 : Store}
    {l2 : List GatewayData} (h : Step s1 l1 s2 l2) :
    ∀ c ∈ s1.carts, c ∉ s2.carts → ∃ p ∈ s2.orders, c.data ∈ p.2.items := by
  intro c hc hnc
  cases h with
  | payment furl now rp uid sid gw =>
      rename_i hst hlog
      subst hst hlog
      rcases paymentStatus_fst_cases furl now s1 rp uid sid gw with heq | ⟨d, hgw, happ, heq⟩
      · rw [heq] at hnc
        exact absurd hc hnc
      · rw [heq] at hnc ⊢
        rw [fulfillState_carts] at hnc
        have hm : (c.userId == uid.getD "" && c.data.supplierId == sid.getD "") = true := by
          by_contra hne
          exact hnc (List.mem_filter.mpr ⟨hc, by simp [Bool.eq_false_iff.mpr hne]⟩)
        refine ⟨(d.id, mkOrderDoc now (uid.getD "") d
          (snapshotItems s1 (uid.getD "") (sid.getD ""))), ?_, ?_⟩
        · rw [fulfillState_orders]
          exact List.mem_cons_self _ _
        · exact List.mem_map.mpr ⟨c, List.mem_filter.mpr ⟨hc, hm⟩, rfl⟩
  | paymentCrashEarly gw =>
      rename_i hst hlog
      subst hst hlog
      exact absurd hc hnc
  | paymentCrashAfterOrder now uid sid d happ =>
      rename_i hst hlog
      subst hst hlog
      exact absurd hc hnc
  | verify rp gw =>
      rename_i hst hlog
      subst hst hlog
      rw [verifyPayment_fst s1 rp gw] at hnc
      exact absurd hc hnc

/-- Concrete checkout request with no name, for witnesses. -/
def bodyNoName : CheckoutBody :=
  { amount := some (.jnum 250), email := none, name := none, street := none,
    city := none, state := none, country := none, postcode := none }

/-- Concrete checkout request with amount 0, for witnesses. -/
def bodyZeroAmount : CheckoutBody :=
  { amount := some (.jnum 0), email := none, name := some "Ali", street := none,
    city := none, state := none, country := none, postcode := none }

/-- Concrete checkout request with a non-numeric amount string. -/
def bodyBadAmount : CheckoutBody :=
  { amount := some (.jstr "abc"), email := none, name := some "Ali", street := none,
    city := none, state := none, country := none, postcode := none }

/-- Concrete checkout request of scenario A: amount 100, name "Ali", no email. -/
def bodyScenarioA : CheckoutBody :=
  { amount := some (.jnum 100), email := none, name := some "Ali", street := none,
    city := none, state := none, country := none, postcode := none }

/-- C3: the Result Classifier is a pure total function on result-code strings:
a code is classified approved exactly when it is one of "000.000.000",
"000.100.110", "000.100.112", and every string is classified approved or
declined (deterministically, being a function). -/
theorem C3_classifier_allowlist (code : String) :
    (classify code = PayClass.approved
      ↔ (code = "000.000.000" ∨ code = "000.100.110" ∨ code = "000.100.112"))
    ∧ (classify code = PayClass.approved ∨ classify code = PayClass.declined) := by
  have hmem : successCodes.contains code = true
      ↔ (code = "000.000.000" ∨ code = "000.100.110" ∨ code = "000.100.112") := by
    simp [successCodes]
  by_cases h : successCodes.contains code = true
  · refine ⟨⟨fun _ => hmem.mp h, fun _ => ?_⟩, Or.inl ?_⟩ <;>
      · unfold classify
        rw [if_pos h]
  · refine ⟨⟨fun ha => absurd ?_ h, fun hor => absurd (hmem.mpr hor) h⟩, Or.inr ?_⟩
    · by_contra hn
      unfold classify at ha
      rw [if_neg hn] at ha
      exact PayClass.noConfusion ha
    · unfold classify
      rw [if_neg h]

/-- Witness for C3: the allow-list code "000.100.112" is classified approved. -/
theorem C3_classifier_allowlist_witness :
    classify "000.100.112" = PayClass.approved :=
  (C3_classifier_allowlist "000.100.112").1.mpr (Or.inr (Or.inr rfl))

/-- C6: an initiate-checkout request in which `name` is missing or `amount` is
missing returns 400 with the descriptive message and issues no gateway call
(the result is the bad-request response, not a gateway call). -/
theorem C6_missing_name_or_amount (entityId currency : String) (now : Nat)
    (b : CheckoutBody) (h : b.name = none ∨ b.amount = none) :
    createCheckout entityId currency now b
      = .badRequest "Missing required fields: name or amount" := by
  unfold createCheckout
  rcases h with h | h <;> simp [h, jsFalsyStr, jsFalsy]

/-- Witness for C6 at a concrete request with no name. -/
theorem C6_missing_name_or_amount_witness :
    (bodyNoName.name = none ∨ bodyNoName.amount = none)
    ∧ createCheckout "ent1" "SAR" 17 bodyNoName
        = .badRequest "Missing required fields: name or amount" :=
  ⟨Or.inl rfl, C6_missing_name_or_amount "ent1" "SAR" 17 bodyNoName (Or.inl rfl)⟩

/-- C10: an initiate-checkout request whose `amount` is the number 0 (present
but falsy) is rejected with 400 "Missing required fields: name or amount" and
no gateway call is issued, because the presence check treats every falsy
amount as absent. -/
theorem C10_zero_amount_rejected (entityId currency : String) (now : Nat)
    (b : CheckoutBody) (h : b.amount = some (.jnum 0)) :
    createCheckout entityId currency now b
      = .badRequest "Missing required fields: name or amount" := by
  unfold createCheckout
  simp [h, jsFalsy]

/-- Witness for C10 at a concrete request with amount 0. -/
theorem C10_zero_amount_rejected_witness :
    bodyZeroAmount.amount = some (.jnum 0)
    ∧ createCheckout "ent1" "SAR" 17 bodyZeroAmount
        = .badRequest "Missing required fields: name or amount" :=
  ⟨rfl, C10_zero_amount_rejected "ent1" "SAR" 17 bodyZeroAmount rfl⟩

/-- C7 as stated fails on the code: with `amount` the present non-numeric
string "abc" and a valid name, the handler does not return 400; it issues the
gateway call, and the call carries amount "NaN". -/
theorem C7_counterexample :
    (sentParams (createCheckout "ent1" "SAR" 17 bodyBadAmount)).isSome = true
    ∧ ((sentParams (createCheckout "ent1" "SAR" 17 bodyBadAmount)).getD []).lookup "amount"
        = some "NaN" :=
  ⟨rfl, rfl⟩

/-- C7 amended: the handler validates only JS falsiness of `amount`; a
present, non-empty, non-numeric amount string with a valid name is not
rejected — the gateway call is issued and its amount parameter is "NaN". -/
theorem C7_amended_nonnumeric_amount (entityId currency : String) (now : Nat)
    (b : CheckoutBody) (s : String)
    (hamt : b.amount = some (.jstr s)) (hs : s ≠ "")
    (hparse : parseFloatStr s = none) (hname : jsFalsyStr b.name = false) :
    (sentParams (createCheckout entityId currency now b)).map
        (fun ps => ps.lookup "amount") = some (some "NaN") := by
  unfold createCheckout
  simp [hamt, hname, jsFalsy, hs, sentParams, checkoutParams, parseFloatVal,
    hparse, toFixed2, List.lookup]

/-- Witness for the amended C7 at the concrete "abc" amount. -/
theorem C7_amended_nonnumeric_amount_witness :
    (sentParams (createCheckout "ent1" "SAR" 17 bodyBadAmount)).map
        (fun ps => ps.lookup "amount") = some (some "NaN") :=
  C7_amended_nonnumeric_amount "ent1" "SAR" 17 bodyBadAmount "abc" rfl
    (by decide) rfl rfl

/-- C8: round-trip through the Checkout Request Builder: for every valid
request, the caller-supplied name, email and address fields appear verbatim
in the gateway parameter set (name and email after trimming, absent optional
fields replaced by the documented defaults), and the amount is formatted with
exactly two decimal places; scenario A (amount 100, name "Ali", no email →
email "buyer@example.com", amount "100.00") is the witness instance. -/
theorem C8_builder_roundtrip (entityId currency : String) (now : Nat)
    (b : CheckoutBody) (a : Int) (nm : String)
    (hamt : b.amount = some (.jnum a)) (ha : a ≠ 0)
    (hname : b.name = some nm) (hnm : nm ≠ "") :
    createCheckout entityId currency now b
        = .gatewayCall (checkoutParams entityId currency now b)
    ∧ (checkoutParams entityId currency now b).lookup "amount"
        = some (toString a ++ ".00")
    ∧ (checkoutParams entityId currency now b).lookup "customer.givenName"
        = some (jsTrim nm)
    ∧ (checkoutParams entityId currency now b).lookup "customer.surname"
        = some (jsTrim nm)
    ∧ (∀ em, b.email = some em → jsTrim em ≠ "" →
        (checkoutParams entityId currency now b).lookup "customer.email"
          = some (jsTrim em))
    ∧ (b.email = none →
        (checkoutParams entityId currency now b).lookup "customer.email"
          = some "buyer@example.com")
    ∧ (∀ v, b.street = some v → v ≠ "" →
        (checkoutParams entityId currency now b).lookup "billing.street1" = some v)
    ∧ (b.street = none →
        (checkoutParams entityId currency now b).lookup "billing.street1"
          = some "King Fahad Road")
    ∧ (∀ v, b.city = some v → v ≠ "" →
        (checkoutParams entityId currency now b).lookup "billing.city" = some v)
    ∧ (b.city = none →
        (checkoutParams entityId currency now b).lookup "billing.city" = some "Riyadh")
    ∧ (∀ v, b.state = some v → v ≠ "" →
        (checkoutParams entityId currency now b).lookup "billing.state" = some v)
    ∧ (b.state = none →
        (checkoutParams entityId currency now b).lookup "billing.state" = some "Riyadh")
    ∧ (∀ v, b.country = some v → v ≠ "" →
        (checkoutParams entityId currency now b).lookup "billing.country" = some v)
    ∧ (b.country = none →
        (checkoutParams entityId currency now b).lookup "billing.country" = some "SA")
    ∧ (∀ v, b.postcode = some v → v ≠ "" →
        (checkoutParams entityId currency now b).lookup "billing.postcode" = some v)
    ∧ (b.postcode = none →
        (checkoutParams entityId currency now b).lookup "billing.postcode"
          = some "12345") := by
  refine ⟨?_, ?_, ?_, ?_, ?_, ?_, ?_, ?_, ?_, ?_, ?_, ?_, ?_, ?_, ?_, ?_⟩
  · unfold createCheckout
    simp [hname, hamt, jsFalsyStr, jsFalsy, hnm, ha]
  · simp [checkoutParams, hamt, parseFloatVal, toFixed2, List.lookup]
  · simp [checkoutParams, hname, List.lookup]
  · simp [checkoutParams, hname, List.lookup]
  · intro em hv hne
    simp [checkoutParams, hv, presentOr, hne, List.lookup]
  · intro hv
    have h0 : jsTrim "" = "" := by decide
    simp [checkoutParams, hv, presentOr, h0, List.lookup]
  · intro v hv hne
    simp [checkoutParams, hv, orDefault, presentOr, hne, List.lookup]
  · intro hv
    simp [checkoutParams, hv, orDefault, presentOr, List.lookup]
  · intro v hv hne
    simp [checkoutParams, hv, orDefault, presentOr, hne, List.lookup]
  · intro hv
    simp [checkoutParams, hv, orDefault, presentOr, List.lookup]
  · intro v hv hne
    simp [checkoutParams, hv, orDefault, presentOr, hne, List.lookup]
  · intro hv
    simp [checkoutParams, hv, orDefault, presentOr, List.lookup]
  · intro v hv hne
    simp [checkoutParams, hv, orDefault, presentOr, hne, List.lookup]
  · intro hv
    simp [checkoutParams, hv, orDefault, presentOr, List.lookup]
  · intro v hv hne
    simp [checkoutParams, hv, orDefault, presentOr, hne, List.lookup]
  · intro hv
    simp [checkoutParams, hv, orDefault, presentOr, List.lookup]

/-- Witness for C8: scenario A — amount 100, name "Ali", no email yields the
default email and amount "100.00". -/
theorem C8_builder_roundtrip_witness :
    (checkoutParams "ent1" "SAR" 17 bodyScenarioA).lookup "customer.email"
        = some "buyer@example.com"
    ∧ (checkoutParams "ent1" "SAR" 17 bodyScenarioA).lookup "amount"
        = some "100.00" := by
  have h := C8_builder_roundtrip "ent1" "SAR" 17 bodyScenarioA 100 "Ali" rfl
    (by decide) rfl (by decide)
  exact ⟨h.2.2.2.2.2.1 rfl, h.2.1⟩

/-- Concrete approved gateway transaction result, for witnesses. -/
def gwApproved : GatewayData :=
  { id := "tx1"
    result := { code := "000.100.112", description := "Request successfully processed" }
    amount := some "100.00"
    paymentType := some "DB"
    cardBrand := some "VISA"
    customerEmail := some "ali@example.com"
    customerGivenName := some "Ali"
    billing := none }

/-- Concrete declined gateway transaction result (scenario C code). -/
def gwDeclined : GatewayData :=
  { id := "tx2"
    result := { code := "100.396.101", description := "Canceled by user" }
    amount := none
    paymentType := none
    cardBrand := none
    customerEmail := none
    customerGivenName := none
    billing := none }

/-- Concrete cart item of buyer1 for supplier sup1. -/
def item1 : CartItem :=
  { docId := "i1", userId := "buyer1", data := { supplierId := "sup1", payload := "p1" } }

/-- Second concrete cart item of buyer1 for supplier sup1. -/
def item2 : CartItem :=
  { docId := "i2", userId := "buyer1", data := { supplierId := "sup1", payload := "p2" } }

/-- Concrete initial store: no orders, two cart items. -/
def st0 : Store := { orders := [], carts := [item1, item2] }

/-- C1: for every resolve-by-redirect call whose fetched gateway result is
approved, afterwards exactly one order document is keyed by the gateway
transaction id; it is the document built from the pre-write cart snapshot of
(buyerId, supplierId), with `transactionId` equal to the order key, status
"Paid" and `items` equal to that snapshot; and the cart collection for
(buyerId, supplierId) is empty afterwards. -/
theorem C1_approved_resolution (furl : String) (now : Nat) (st : Store)
    (rp uid sid : String) (d : GatewayData)
    (hrp : rp ≠ "") (huid : uid ≠ "") (hsid : sid ≠ "")
    (happ : successCodes.contains d.result.code = true) :
    ((paymentStatus furl now st (some rp) (some uid) (some sid) (some d)).1.orders.filter
        (fun p => p.1 == d.id)).length = 1
    ∧ (paymentStatus furl now st (some rp) (some uid) (some sid) (some d)).1.orders.filter
        (fun p => p.1 == d.id)
        = [(d.id, mkOrderDoc now uid d (snapshotItems st uid sid))]
    ∧ (mkOrderDoc now uid d (snapshotItems st uid sid)).transactionId = d.id
    ∧ (mkOrderDoc now uid d (snapshotItems st uid sid)).orderStatus = "Paid"
    ∧ (mkOrderDoc now uid d (snapshotItems st uid sid)).items = snapshotItems st uid sid
    ∧ cartQuery (paymentStatus furl now st (some rp) (some uid) (some sid) (some d)).1
        uid sid = [] := by
  have hps := paymentStatus_approved furl now st rp uid sid d hrp huid hsid happ
  have h1 : (paymentStatus furl now st (some rp) (some uid) (some sid) (some d)).1
      = fulfillState now st uid sid d := by rw [hps]
  rw [h1]
  refine ⟨?_, ?_, rfl, rfl, rfl, cartQuery_fulfillState now st uid sid d⟩
  · rw [fulfillState_orders, setOrder_filter]
    rfl
  · rw [fulfillState_orders]
    exact setOrder_filter _ _ _

/-- Witness for C1 at a concrete approved resolution over two cart items. -/
theorem C1_approved_resolution_witness :
    ((paymentStatus "F" 7 st0 (some "/p") (some "buyer1") (some "sup1")
        (some gwApproved)).1.orders.filter (fun p => p.1 == gwApproved.id)).length = 1
    ∧ cartQuery (paymentStatus "F" 7 st0 (some "/p") (some "buyer1") (some "sup1")
        (some gwApproved)).1 "buyer1" "sup1" = [] := by
  have h := C1_approved_resolution "F" 7 st0 "/p" "buyer1" "sup1" gwApproved
    (by decide) (by decide) (by decide) (by decide)
  exact ⟨h.1, h.2.2.2.2.2⟩

/-- C4: resolving twice with the same resourcePath and the same approved
result is idempotent: the first resolution leaves the (buyerId, supplierId)
cart query empty, so the second cart-delete deletes an empty selection and
leaves the carts unchanged, and the second unconditional order write
overwrites rather than duplicates — exactly one order document remains keyed
by the transaction id. -/
theorem C4_idempotent_resolution (furl : String) (n1 n2 : Nat) (st : Store)
    (rp uid sid : String) (d : GatewayData)
    (hrp : rp ≠ "") (huid : uid ≠ "") (hsid : sid ≠ "")
    (happ : successCodes.contains d.result.code = true) :
    cartQuery (paymentStatus furl n1 st (some rp) (some uid) (some sid) (some d)).1
        uid sid = []
    ∧ (paymentStatus furl n2
          (paymentStatus furl n1 st (some rp) (some uid) (some sid) (some d)).1
          (some rp) (some uid) (some sid) (some d)).1.carts
        = (paymentStatus furl n1 st (some rp) (some uid) (some sid) (some d)).1.carts
    ∧ ((paymentStatus furl n2
          (paymentStatus furl n1 st (some rp) (some uid) (some sid) (some d)).1
          (some rp) (some uid) (some sid) (some d)).1.orders.filter
          (fun p => p.1 == d.id)).length = 1 := by
  have h1 := paymentStatus_approved furl n1 st rp uid sid d hrp huid hsid happ
  have h2 := paymentStatus_approved furl n2 (fulfillState n1 st uid sid d)
    rp uid sid d hrp huid hsid happ
  simp only [h1, h2]
  refine ⟨cartQuery_fulfillState n1 st uid sid d, ?_, ?_⟩
  · rw [fulfillState_carts, fulfillState_carts, List.filter_filter]
    simp [Bool.and_self]
  · rw [fulfillState_orders, setOrder_filter]
    rfl

/-- Witness for C4 at a concrete double resolution. -/
theorem C4_idempotent_resolution_witness :
    (paymentStatus "F" 8
        (paymentStatus "F" 7 st0 (some "/p") (some "buyer1") (some "sup1")
          (some gwApproved)).1
        (some "/p") (some "buyer1") (some "sup1") (some gwApproved)).1.carts
      = (paymentStatus "F" 7 st0 (some "/p") (some "buyer1") (some "sup1")
          (some gwApproved)).1.carts
    ∧ ((paymentStatus "F" 8
        (paymentStatus "F" 7 st0 (some "/p") (some "buyer1") (some "sup1")
          (some gwApproved)).1
        (some "/p") (some "buyer1") (some "sup1") (some gwApproved)).1.orders.filter
        (fun p => p.1 == gwApproved.id)).length = 1 := by
  have h := C4_idempotent_resolution "F" 7 8 st0 "/p" "buyer1" "sup1" gwApproved
    (by decide) (by decide) (by decide) (by decide)
  exact ⟨h.2.1, h.2.2⟩

/-- C5: on a declined result the Fulfillment Coordinator is not invoked — the
store (orders and carts) is returned unchanged and the response is a redirect
to the failure page carrying the result code and its description. -/
theorem C5_declined_no_mutation (furl : String) (now : Nat) (st : Store)
    (rp uid sid : String) (d : GatewayData)
    (hrp : rp ≠ "") (huid : uid ≠ "") (hsid : sid ≠ "")
    (hdec : successCodes.contains d.result.code = false) :
    paymentStatus furl now st (some rp) (some uid) (some sid) (some d)
      = (st, .redirect (furl ++ "/payment-failed?error=" ++ encodeURIComponent d.result.code
          ++ "&message=" ++ encodeURIComponent d.result.description)) :=
  paymentStatus_declined furl now st rp uid sid d hrp huid hsid hdec

/-- Witness for C5 at the scenario-C declined code "100.396.101". -/
theorem C5_declined_no_mutation_witness :
    paymentStatus "F" 7 st0 (some "/p") (some "buyer1") (some "sup1") (some gwDeclined)
      = (st0, .redirect ("F" ++ "/payment-failed?error="
          ++ encodeURIComponent gwDeclined.result.code
          ++ "&message=" ++ encodeURIComponent gwDeclined.result.description)) :=
  C5_declined_no_mutation "F" 7 st0 "/p" "buyer1" "sup1" gwDeclined
    (by decide) (by decide) (by decide) (by decide)

/-- C9: the verify-only operation performs no persistence — for every call,
whatever the gateway result, the store is unchanged (no order written, no
cart item deleted); with a present resourcePath it returns the mapped gateway
fields, and with resourcePath absent it returns 400. -/
theorem C9_verify_only (st : Store) (rp : Option String) (gw : Option GatewayData) :
    (verifyPayment st rp gw).1 = st
    ∧ (rp = none → (verifyPayment st rp gw).2 = .badRequest "Missing resourcePath")
    ∧ (∀ s d, rp = some s → s ≠ "" → gw = some d →
        (verifyPayment st rp gw).2
          = .ok d.id d.amount d.paymentType d.cardBrand d.customerGivenName
              d.customerEmail (d.billing.getD "\x7b\x7d") s) := by
  refine ⟨verifyPayment_fst st rp gw, ?_, ?_⟩
  · intro h
    subst h
    rfl
  · intro s d hs hd hgw
    subst hs hgw
    unfold verifyPayment
    simp [jsFalsyStr, hd]

/-- Witness for C9: a concrete verify-only call leaves the store unchanged. -/
theorem C9_verify_only_witness :
    (verifyPayment st0 (some "/v1/checkouts/abc/payment") (some gwApproved)).1 = st0 :=
  (C9_verify_only st0 (some "/v1/checkouts/abc/payment") (some gwApproved)).1

/-- C2: invariant of reachable store states: an order document exists for a
transaction id only if an approved gateway result was previously observed for
that id; and because a fulfillment snapshots the cart, writes the order, then
deletes the cart (crashes may stop after the write but never between delete
and write), any step that removes cart items leaves an order in the post
state whose item snapshot contains each removed item's data — the cart is
never cleared without the corresponding order existing. -/
theorem C2_order_provenance_and_ordering :
    (∀ st log, Reach st log → ∀ p ∈ st.orders,
        ∃ d ∈ log, d.id = p.1 ∧ successCodes.contains d.result.code = true)
    ∧ (∀ s1 l1 s2 l2, Step s1 l1 s2 l2 →
        ∀ c ∈ s1.carts, c ∉ s2.carts → ∃ p ∈ s2.orders, c.data ∈ p.2.items) :=
  ⟨fun _ _ h => reach_orders_inv h, fun _ _ _ _ h => step_cart_delete h⟩

/-- Witness for C2: a concrete fulfillment step that deletes item1 yields an
order whose snapshot contains item1's data. -/
theorem C2_order_provenance_and_ordering_witness :
    ∃ p ∈ (paymentStatus "F" 7 st0 (some "/p") (some "buyer1") (some "sup1")
        (some gwApproved)).1.orders, item1.data ∈ p.2.items :=
  C2_order_provenance_and_ordering.2 st0 []
    (paymentStatus "F" 7 st0 (some "/p") (some "buyer1") (some "sup1")
      (some gwApproved)).1
    ([] ++ (some gwApproved).toList)
    (Step.payment st0 [] "F" 7 (some "/p") (some "buyer1") (some "sup1")
      (some gwApproved) _ _ rfl rfl)
    item1 (by decide) (by decide)

end HyperPay
